import Mathlib

/-!
Verification development for the Chrome DevTools MCP performance-test
scripts.  The definitions below are shallow embeddings of the JavaScript
sources under `src/`:

* `parseTraceMetrics` — the trace-file decoder of the Word-report renderer
  (src/unnamed/part_002, lines 7–34);
* `parseRawTraceBuffer` — the trace-processing decoder used by
  `full_scenario_perf.mjs`, modelled from the spec because its code lives in
  `build/src/trace-processing/parse.js`, outside `src/`;
* the Core Web Vitals reducers (TBT, TTFB, CLS, LCP) from
  `enhanced_perf_test.mjs`, `generate_enhanced_report.mjs`,
  `markdown_report.mjs` and `generate_mcp_report.mjs`;
* the trace-transaction (`recordTraceAround`) and scenario-runner control
  flow of `full_scenario_perf.mjs` and `enhanced_perf_test.mjs`, embedded as
  state-passing programs over a virtual clock and an event log; a step
  action either completes reporting its outcome by value or throws an
  uncaught exception, and the runners propagate such an exception to the
  top-level catch exactly as the source does.

JavaScript numbers are modelled as rationals; machine floating point does not
affect any verified statement.  Where a JavaScript computation can throw, the
exception escaping a function is modelled as `Except.error`.
-/

namespace PerfSpec

/-- A JSON value, the input domain of the trace decoders.  Numbers are
modelled as rationals. -/
inductive Json where
  | null
  | bool (b : Bool)
  | num (q : Rat)
  | str (s : String)
  | arr (elems : List Json)
  | obj (fields : List (String × Json))

/-- The exception classes that can escape the decoders. -/
inductive JsError where
  | syntaxError
  | typeError
deriving DecidableEq

/-- JavaScript property read `j[k]` for a non-null receiver: an object field
lookup, `undefined` (here `none`) on any other receiver. -/
def jsGet (j : Json) (k : String) : Option Json :=
  match j with
  | .obj fields => (fields.find? (fun f => f.1 == k)).map (fun f => f.2)
  | _ => none

/-- Optional chaining `o?.k`: short-circuits to `undefined` when the receiver
is `undefined` or `null`, otherwise reads the property. -/
def jsGetChain (o : Option Json) (k : String) : Option Json :=
  match o with
  | none => none
  | some .null => none
  | some j => jsGet j k

/-- JavaScript truthiness of a value that may be `undefined` (`none`). -/
def truthy : Option Json → Bool
  | none => false
  | some .null => false
  | some (.bool b) => b
  | some (.num q) => q != 0
  | some (.str s) => s != ""
  | some (.arr _) => true
  | some (.obj _) => true

/-- JavaScript `ToNumber` on a JSON value, as used by `-` and `+` on
non-number operands.  `none` stands for NaN.  String-to-number parsing and
object-to-primitive coercion are collapsed to NaN; no verified claim inspects
the numeric value of such a coercion, only that it never throws. -/
def toNumberApprox : Json → Option Rat
  | .null => some 0
  | .bool b => some (if b then 1 else 0)
  | .num q => some q
  | .str _ => none
  | .arr _ => none
  | .obj _ => none

/-- `ToNumber` on a possibly-`undefined` value: `Number(undefined)` is NaN. -/
def toNumberOpt (o : Option Json) : Option Rat :=
  match o with
  | none => none
  | some j => toNumberApprox j

/-- Result of a guarded timing computation: JavaScript `null`, a finite
number, or NaN. -/
inductive JsTiming where
  | nullT
  | numT (q : Rat)
  | nanT
deriving DecidableEq

/-- `endTs && startTs ? (endTs - startTs) / 1000 : null`, the timing pattern
of part_002 lines 17–19. -/
def diffOver1000 (endTs startTs : Option Json) : JsTiming :=
  if truthy endTs && truthy startTs then
    match toNumberOpt endTs, toNumberOpt startTs with
    | some e, some s => .numT ((e - s) / 1000)
    | _, _ => .nanT
  else .nullT

/-- Strict equality `v === s` between a property value and a string literal:
true exactly when the value is that string. -/
def strictEqStr (o : Option Json) (s : String) : Bool :=
  match o with
  | some (.str t) => t == s
  | _ => false

/-- Whether a JSON value is the literal `null`. -/
def isNullJson : Json → Bool
  | .null => true
  | _ => false

/-- `traceData.find(e => e.name === nm)`: reading `.name` off a `null`
element throws a TypeError which escapes; otherwise the first matching
element (or `undefined`) is returned.  Short-circuits like
`Array.prototype.find`. -/
def findByName (events : List Json) (nm : String) : Except JsError (Option Json) :=
  match events with
  | [] => .ok none
  | e :: rest =>
    if isNullJson e then .error .typeError
    else if strictEqStr (jsGet e "name") nm then .ok (some e)
    else findByName rest nm

/-- `traceData.filter(e => e.name === nm)`, traversing every element; a
`null` element throws a TypeError which escapes. -/
def filterByName (events : List Json) (nm : String) : Except JsError (List Json) :=
  match events with
  | [] => .ok []
  | e :: rest =>
    if isNullJson e then .error .typeError
    else do
      let tail ← filterByName rest nm
      if strictEqStr (jsGet e "name") nm then pure (e :: tail) else pure tail

/-- One step of
`.reduce((sum, e) => sum + (e.args?.data?.encodedDataLength || 0), 0)`
(part_002 lines 23–25).  `none` stands for a non-number accumulator (NaN, or
the string produced by `+` on a truthy non-number length); the reduction
itself never throws. -/
def addEncodedLength (sum : Option Rat) (e : Json) : Option Rat :=
  let lenv := jsGetChain (jsGetChain (jsGet e "args") "data") "encodedDataLength"
  let picked : Json :=
    match lenv with
    | some v => if truthy (some v) then v else .num 0
    | none => .num 0
  match sum, toNumberApprox picked with
  | some s, some q => some (s + q)
  | _, _ => none

/-- The record returned by `parseTraceMetrics` (part_002 lines 27–33). -/
structure TraceSummary where
  loadTime : JsTiming
  firstPaint : JsTiming
  firstContentfulPaint : JsTiming
  networkRequests : Nat
  networkBytes : Option Rat
deriving DecidableEq

/-- Shallow embedding of `parseTraceMetrics` (src/unnamed/part_002, lines
7–34).  The raw buffer is represented by its `JSON.parse` outcome: `none` for
text that does not parse (an empty or truncated file makes `JSON.parse` throw
a SyntaxError), `some j` for text parsing to the JSON value `j`.
`Except.error` models an exception escaping the function: the source has no
try/catch, so the SyntaxError from `JSON.parse`, and the TypeError from
calling `.find` on a non-array or from reading `.name` off a `null` element,
all propagate to the caller. -/
def parseTraceMetrics (buffer : Option Json) : Except JsError TraceSummary := do
  let traceData ← match buffer with
    | none => Except.error JsError.syntaxError
    | some j => Except.ok j
  let events ← match traceData with
    | .arr es => Except.ok es
    | _ => Except.error JsError.typeError
  let navigationStart := jsGetChain (← findByName events "navigationStart") "ts"
  let loadEventEnd := jsGetChain (← findByName events "loadEventEnd") "ts"
  let firstPaint := jsGetChain (← findByName events "firstPaint") "ts"
  let firstContentfulPaint := jsGetChain (← findByName events "firstContentfulPaint") "ts"
  let sendReqs ← filterByName events "ResourceSendRequest"
  let recvResps ← filterByName events "ResourceReceiveResponse"
  let networkBytes := recvResps.foldl addEncodedLength (some 0)
  pure {
    loadTime := diffOver1000 loadEventEnd navigationStart
    firstPaint := diffOver1000 firstPaint navigationStart
    firstContentfulPaint := diffOver1000 firstContentfulPaint navigationStart
    networkRequests := sendReqs.length
    networkBytes := networkBytes.map (fun b => b / 1024 / 1024)
  }

/-- A structured capture: the ordered trace events. -/
structure RawTraceCapture where
  events : List Json

/-- Decoder outcome of `parseRawTraceBuffer`: a structured capture or a
ParseError-style failure value (a returned value, not a thrown exception);
the caller at full_scenario_perf.mjs line 86 branches on exactly these two
shapes (`parsed.parsedTrace` versus `parsed.error`). -/
inductive ParseOutcome where
  | parsedTrace (capture : RawTraceCapture)
  | parseError (detail : String)

/-- Modelled from the spec: `parseRawTraceBuffer` is imported from
`build/src/trace-processing/parse.js`, which is not under `src/`; only its
caller `recordTraceAround` (src/scripts/full_scenario_perf.mjs lines 84–89)
is.  Spec section 4.1: decoding is total over any buffer the tracing
capability can emit; a malformed or truncated buffer yields a ParseError
failure value rather than an exception, and an empty or category-mismatched
capture yields a capture with zero events.  The buffer is represented by its
JSON-parse outcome, as for `parseTraceMetrics`. -/
def parseRawTraceBuffer (buffer : Option Json) : ParseOutcome :=
  match buffer with
  | none => .parseError "truncated or malformed trace buffer"
  | some (.arr events) => .parsedTrace { events := events }
  | some _ => .parseError "unexpected trace buffer shape"

/-- A long-task record as pushed by the injected PerformanceObserver
(src/scripts/enhanced_perf_test.mjs lines 70–79). -/
structure LongTask where
  duration : Rat
  startTime : Rat
deriving DecidableEq

/-- `longTasks.reduce((sum, task) => sum + Math.max(0, task.duration - 50), 0)`
as written identically at generate_enhanced_report.mjs line 53,
markdown_report.mjs line 27 and the HTML report generator
(enhanced_perf_test.mjs second document, line 355). -/
def totalBlockingTime (longTasks : List LongTask) : Rat :=
  longTasks.foldl (fun sum task => sum + max 0 (task.duration - 50)) 0

/-- The navigation-timing entry sampled by `getPerformanceMetrics`:
`performance.getEntriesByType('navigation')[0]`, absent (`none`) when no
navigation occurred in the step. -/
structure NavigationTiming where
  responseStart : Rat
  requestStart : Rat
deriving DecidableEq

/-- `metrics.navigationTiming ? metrics.navigationTiming.responseStart -
metrics.navigationTiming.requestStart : null` (HTML report generator,
enhanced_perf_test.mjs second document lines 351–353); markdown_report.mjs
lines 21–24 guards the same subtraction with `if (metrics.navigationTiming)`
and omits the line otherwise. -/
def ttfbOf (navigationTiming : Option NavigationTiming) : Option Rat :=
  navigationTiming.map (fun nav => nav.responseStart - nav.requestStart)

/-- A layout-shift entry delivered to the CLS observer.  `hadRecentInput` is
set by the browser exactly when the shift occurred within 500ms of a user
input (external PerformanceObserver semantics). -/
structure LayoutShift where
  value : Rat
  hadRecentInput : Bool
deriving DecidableEq

/-- The CLS accumulation loop of `injectPerformanceObserver`
(src/scripts/enhanced_perf_test.mjs lines 47–56): starting from
`clsValue = 0`, each delivered entry adds `entry.value` exactly when
`!entry.hadRecentInput`. -/
def clsAccumulate (shifts : List LayoutShift) : Rat :=
  shifts.foldl (fun clsValue entry =>
    if !entry.hadRecentInput then clsValue + entry.value else clsValue) 0

/-- One LCP candidate entry, identified by its render time. -/
structure LcpEntry where
  startTime : Rat
deriving DecidableEq

/-- One callback of the LCP observer (enhanced_perf_test.mjs lines 40–45):
`const entries = list.getEntries(); if (entries.length > 0)
window.__LCP = entries[entries.length - 1];`. -/
def lcpCallback (lcpState : Option LcpEntry) (entries : List LcpEntry) : Option LcpEntry :=
  if 0 < entries.length then entries.getLast? else lcpState

/-- `window.__LCP` after the observer has received the given callback
batches before the live sample was taken, starting uninitialised. -/
def lcpObserved (batches : List (List LcpEntry)) : Option LcpEntry :=
  batches.foldl lcpCallback none

/-- A value as it appears in a report cell: a number or the explicit
`N/A` marker. -/
inductive ReportCell where
  | num (q : Rat)
  | na
deriving DecidableEq

/-- `const lcp = metrics.LargestContentfulPaint || 'N/A'`
(generate_mcp_report.mjs line 29): an absent or zero value displays as the
marker. -/
def mcpLcpCell (v : Option Rat) : ReportCell :=
  match v with
  | some q => if q != 0 then .num q else .na
  | none => .na

/-- `const cls = metrics.CumulativeLayoutShift || 0`
(generate_mcp_report.mjs line 30): an absent value displays as the number 0. -/
def mcpClsCell (v : Option Rat) : ReportCell :=
  match v with
  | some q => if q != 0 then .num q else .num 0
  | none => .num 0

/-- `const inp = metrics.InteractionToNextPaint || 'N/A'`
(generate_mcp_report.mjs line 31). -/
def mcpInpCell (v : Option Rat) : ReportCell :=
  match v with
  | some q => if q != 0 then .num q else .na
  | none => .na

/-- `const ttfb = metrics.TimeToFirstByte || 'N/A'`
(generate_mcp_report.mjs line 32). -/
def mcpTtfbCell (v : Option Rat) : ReportCell :=
  match v with
  | some q => if q != 0 then .num q else .na
  | none => .na

/-- `const tbt = metrics.TotalBlockingTime || 'N/A'`
(generate_mcp_report.mjs line 33). -/
def mcpTbtCell (v : Option Rat) : ReportCell :=
  match v with
  | some q => if q != 0 then .num q else .na
  | none => .na

/-- `metrics.lcp?.duration ? (metrics.lcp.duration/1000).toFixed(2)+'s' :
'N/A'` (markdown_report.mjs line 17); decimal formatting is elided, the
displayed number of seconds is kept. -/
def mdLcpCell (duration : Option Rat) : ReportCell :=
  match duration with
  | some q => if q != 0 then .num (q / 1000) else .na
  | none => .na

/-- `metrics.cls?.toFixed(3) || 'N/A'` (markdown_report.mjs line 18):
`toFixed` on a present number yields a non-empty, hence truthy, string even
for 0. -/
def mdClsCell (cls : Option Rat) : ReportCell :=
  match cls with
  | some q => .num q
  | none => .na

/-- `metrics.inp?.toFixed(2) || 'N/A'` (markdown_report.mjs line 19). -/
def mdInpCell (inp : Option Rat) : ReportCell :=
  match inp with
  | some q => .num q
  | none => .na

/-! ## Trace transaction and scenario runner

`recordTraceAround` and the scenario drivers are imperative `async`
functions; they are embedded as state-passing programs over a virtual clock
and an append-only event log.  Every awaited primitive appends one log entry
recording its start time and duration and advances the clock; the duration
of each primitive is drawn from an environment (`TxCtx`), so the theorems
below quantify over every scheduling and every action outcome. -/

/-- An awaited primitive in the life of one trace transaction. -/
inductive TxEvent where
  | navBlank
  | traceStart
  | actionRun (ok : Bool)
  | settleSleep (ms : Nat)
  | sampleMetrics
  | saveMetricsFile
  | traceStop
  | decodeBuffer
  | saveTraceFile
deriving DecidableEq

/-- One log entry: the virtual start time of the primitive, how long it
took, and what it was. -/
structure TxLogEntry where
  start : Nat
  dur : Nat
  ev : TxEvent
deriving DecidableEq

/-- Virtual clock plus event log of one browser session. -/
structure TxState where
  now : Nat
  log : List TxLogEntry

/-- The session state at launch. -/
def initTxState : TxState := { now := 0, log := [] }

/-- Await one primitive: record it at the current time and advance the
clock by its duration. -/
def emit (e : TxEvent) (dur : Nat) (s : TxState) : TxState :=
  { now := s.now + dur, log := s.log ++ [{ start := s.now, dur := dur, ev := e }] }

/-- Environment of one trace transaction: how long each awaited primitive
takes (the scheduler decides; `sleepSlack` is the extra delay `setTimeout`
may add beyond the requested milliseconds), whether the step's action
reports success or failure, and the raw buffer the tracing capability
returns on stop. -/
structure TxCtx where
  navDur : Nat
  startDur : Nat
  actionDur : Nat
  sleepSlack : Nat
  sampleDur : Nat
  stopDur : Nat
  decodeDur : Nat
  saveDur : Nat
  actionOk : Bool
  buffer : Option Json

/-- The summary text saved for a step by full_scenario_perf.mjs line 86: a
rendering of the parsed trace (`getTraceSummary`, in `build/src`, treated as
opaque) when decoding produced a capture, or the
`Error parsing trace: ...` fallback text otherwise. -/
inductive StepSummary where
  | traceSummary (capture : RawTraceCapture)
  | parseErrorText (detail : String)

/-- What one full_scenario `recordTraceAround` call returns (line 89):
the decode outcome and the summary text written to the step's file. -/
structure FullStepResult where
  parsed : ParseOutcome
  summary : StepSummary

/-- Shallow embedding of `recordTraceAround`
(src/scripts/full_scenario_perf.mjs lines 51–90) on the path where the
step's action completes by reporting its outcome as a value: optionally
reset to about:blank (navigation failures are swallowed by the try/catch on
line 74, so the reset is one awaited primitive either way), start tracing,
run the action, wait the fixed 2500ms settle delay, stop tracing, decode
the returned buffer with `parseRawTraceBuffer`, and save the summary file.
The transaction never branches on the action's reported outcome.  Some
actions `run` passes in also have uncaught throwing paths (the home
`page.goto` at line 105, the product `el.click` at line 166); line 79
awaits the action with no try/catch, so such a rejection escapes the
transaction — that path is modelled by `recordTraceAroundFullExc`. -/
def recordTraceAroundFull (ctx : TxCtx) (reload : Bool) (s : TxState) :
    TxState × FullStepResult :=
  let s1 := if reload then emit .navBlank ctx.navDur s else s
  let s2 := emit .traceStart ctx.startDur s1
  let s3 := emit (.actionRun ctx.actionOk) ctx.actionDur s2
  let s4 := emit (.settleSleep 2500) (2500 + ctx.sleepSlack) s3
  let s5 := emit .traceStop ctx.stopDur s4
  let parsed := parseRawTraceBuffer ctx.buffer
  let s6 := emit .decodeBuffer ctx.decodeDur s5
  let summary :=
    match parsed with
    | .parsedTrace c => StepSummary.traceSummary c
    | .parseError d => StepSummary.parseErrorText d
  let s7 := emit .saveTraceFile ctx.saveDur s6
  (s7, { parsed := parsed, summary := summary })

/-- What one enhanced `recordTraceAround` call returns, reduced to the
virtual times at which the live metrics snapshot was taken and the trace was
stopped (the snapshot contents and buffer bytes are opaque to the claims
below). -/
structure EnhancedStepResult where
  sampledAt : Nat
  stoppedAt : Nat
deriving DecidableEq

/-- Shallow embedding of `recordTraceAround`
(src/scripts/enhanced_perf_test.mjs lines 110–144) on the path where the
step's action completes by reporting its outcome as a value: optional
about:blank reset (failure only warns), start tracing, run the action, wait
the fixed 2500ms settle delay, sample the live performance metrics, write
the metrics file, stop tracing, write the trace file.  As above, the
transaction never branches on the action's reported outcome.  The homepage
action's `page.goto` (line 169) is uncaught, and the bare gotos inside the
catch blocks of later actions (lines 185, 218, 267, 298) can themselves
reject; line 126 awaits the action with no try/catch, so such a rejection
escapes the transaction — modelled by `recordTraceAroundEnhancedExc`. -/
def recordTraceAroundEnhanced (ctx : TxCtx) (reload : Bool) (s : TxState) :
    TxState × EnhancedStepResult :=
  let s1 := if reload then emit .navBlank ctx.navDur s else s
  let s2 := emit .traceStart ctx.startDur s1
  let s3 := emit (.actionRun ctx.actionOk) ctx.actionDur s2
  let s4 := emit (.settleSleep 2500) (2500 + ctx.sleepSlack) s3
  let s5 := emit .sampleMetrics ctx.sampleDur s4
  let s6 := emit .saveMetricsFile ctx.saveDur s5
  let s7 := emit .traceStop ctx.stopDur s6
  let s8 := emit .saveTraceFile ctx.saveDur s7
  (s8, { sampledAt := s4.now, stoppedAt := s6.now })

/-- How one step's action finishes: reporting success by value, reporting
failure by value (clicked = false, a caught error, a swallowed navigation
failure), or throwing an exception that nothing in the action catches (the
home/homepage `page.goto` of full_scenario_perf.mjs line 105 and
enhanced_perf_test.mjs line 169, the product `el.click` of line 166, and
the bare gotos inside the catch blocks of enhanced_perf_test.mjs lines 185,
218, 267, 298 all have such a path). -/
inductive ActionOutcome where
  | ok
  | reportedFailure
  | thrown
deriving DecidableEq

/-- The boolean the transaction's action event records for an action that
completed by reporting a value. -/
def actionOkOf : ActionOutcome → Bool
  | .ok => true
  | _ => false

/-- How a run ends abnormally: an exception nobody below the top-level
catch handles. -/
inductive RunAbort where
  | uncaughtException
deriving DecidableEq

/-- One `recordTraceAround` call of full_scenario_perf.mjs with the
action's throwing path modelled: line 79 awaits the action with no
try/catch, so a thrown action rejects the transaction itself — the settle
wait, trace stop, decode and save never run and no step result is
produced.  An action that completes by value runs the whole transaction
(`recordTraceAroundFull`). -/
def recordTraceAroundFullExc (ctx : TxCtx) (outcome : ActionOutcome)
    (reload : Bool) (s : TxState) : Except RunAbort (TxState × FullStepResult) :=
  match outcome with
  | .thrown => .error .uncaughtException
  | o => .ok (recordTraceAroundFull { ctx with actionOk := actionOkOf o } reload s)

/-- One `recordTraceAround` call of enhanced_perf_test.mjs with the
action's throwing path modelled: line 126 awaits the action with no
try/catch, so a thrown action rejects the transaction before the settle
wait, sample and stop. -/
def recordTraceAroundEnhancedExc (ctx : TxCtx) (outcome : ActionOutcome)
    (reload : Bool) (s : TxState) : Except RunAbort (TxState × EnhancedStepResult) :=
  match outcome with
  | .thrown => .error .uncaughtException
  | o => .ok (recordTraceAroundEnhanced { ctx with actionOk := actionOkOf o } reload s)

/-- Per-step transaction environments of one scenario run: the context
(scheduling, returned buffer) of the i-th transaction. -/
def RunEnv := Nat → TxCtx

/-- One entry of the aggregated report list built by the full_scenario
runner: the step key plus the transaction result spread into it. -/
structure ReportEntry where
  step : String
  result : FullStepResult

/-- The step keys pushed by `run` (full_scenario_perf.mjs lines 107–221),
in execution order. -/
def scenarioStepNames : List String :=
  ["home", "sign_in", "login", "fish", "product", "add_to_cart",
   "view_cart", "checkout", "logout"]

/-- Shallow embedding of the scenario runner `run`
(src/scripts/full_scenario_perf.mjs lines 92–242): nine `recordTraceAround`
calls in a fixed order against the single page (each call awaited to
completion before the next starts), each followed unconditionally by a
`report.push`; the final report is assembled only after all nine.  The
runner never branches on a step's reported outcome — but it has no
try/catch either: an exception thrown by any step's action propagates
through `run` (whose try has only a finally) to `run().catch`, which exits
the process (lines 239–242) with the report never assembled. -/
def runScenario (env : RunEnv) (outcomes : Nat → ActionOutcome) :
    Except RunAbort (List ReportEntry) := do
  let p0 ← recordTraceAroundFullExc (env 0) (outcomes 0) true initTxState
  let p1 ← recordTraceAroundFullExc (env 1) (outcomes 1) true p0.1
  let p2 ← recordTraceAroundFullExc (env 2) (outcomes 2) true p1.1
  let p3 ← recordTraceAroundFullExc (env 3) (outcomes 3) true p2.1
  let p4 ← recordTraceAroundFullExc (env 4) (outcomes 4) true p3.1
  let p5 ← recordTraceAroundFullExc (env 5) (outcomes 5) true p4.1
  let p6 ← recordTraceAroundFullExc (env 6) (outcomes 6) true p5.1
  let p7 ← recordTraceAroundFullExc (env 7) (outcomes 7) true p6.1
  let p8 ← recordTraceAroundFullExc (env 8) (outcomes 8) true p7.1
  pure
   [{ step := "home", result := p0.2 }, { step := "sign_in", result := p1.2 },
    { step := "login", result := p2.2 }, { step := "fish", result := p3.2 },
    { step := "product", result := p4.2 }, { step := "add_to_cart", result := p5.2 },
    { step := "view_cart", result := p6.2 }, { step := "checkout", result := p7.2 },
    { step := "logout", result := p8.2 }]

/-- One entry of the report list built by the enhanced runner `main`. -/
structure EnhancedReportEntry where
  step : String
  result : EnhancedStepResult
deriving DecidableEq

/-- The step keys pushed by `main` (enhanced_perf_test.mjs lines 172–302),
in execution order. -/
def enhancedStepNames : List String :=
  ["homepage", "sign_in", "login", "fish", "product", "add_to_cart",
   "view_cart", "checkout", "logout"]

/-- Shallow embedding of the enhanced runner `main`
(src/scripts/enhanced_perf_test.mjs lines 150–315): nine sequential
`recordTraceAround` calls, each followed unconditionally by a
`report.push`; report.json is written only after all nine.  An exception
thrown by a step's action lands in `main`'s outer catch (lines 311–314),
which logs and exits the process with no report written. -/
def mainScenario (env : RunEnv) (outcomes : Nat → ActionOutcome) :
    Except RunAbort (List EnhancedReportEntry) := do
  let p0 ← recordTraceAroundEnhancedExc (env 0) (outcomes 0) true initTxState
  let p1 ← recordTraceAroundEnhancedExc (env 1) (outcomes 1) true p0.1
  let p2 ← recordTraceAroundEnhancedExc (env 2) (outcomes 2) true p1.1
  let p3 ← recordTraceAroundEnhancedExc (env 3) (outcomes 3) true p2.1
  let p4 ← recordTraceAroundEnhancedExc (env 4) (outcomes 4) true p3.1
  let p5 ← recordTraceAroundEnhancedExc (env 5) (outcomes 5) true p4.1
  let p6 ← recordTraceAroundEnhancedExc (env 6) (outcomes 6) true p5.1
  let p7 ← recordTraceAroundEnhancedExc (env 7) (outcomes 7) true p6.1
  let p8 ← recordTraceAroundEnhancedExc (env 8) (outcomes 8) true p7.1
  pure
   [{ step := "homepage", result := p0.2 }, { step := "sign_in", result := p1.2 },
    { step := "login", result := p2.2 }, { step := "fish", result := p3.2 },
    { step := "product", result := p4.2 }, { step := "add_to_cart", result := p5.2 },
    { step := "view_cart", result := p6.2 }, { step := "checkout", result := p7.2 },
    { step := "logout", result := p8.2 }]

/-- A concrete transaction context used by this file's witnesses and
counterexamples. -/
def sampleTxCtx : TxCtx :=
  { navDur := 1, startDur := 1, actionDur := 1, sleepSlack := 0, sampleDur := 1,
    stopDur := 1, decodeDur := 1, saveDur := 1, actionOk := true, buffer := none }

/-! ## Action executor -/

/-- A DOM node as seen by the action executor: the selectors it matches and
its text content (`none` models a null `textContent`). -/
structure DomNode where
  selectors : List String
  textContent : Option String

/-- The page as a document-ordered node list. -/
structure PageDom where
  nodes : List DomNode

/-- `document.querySelectorAll(sel)`, in document order. -/
def querySelectorAll (p : PageDom) (sel : String) : List DomNode :=
  p.nodes.filter (fun n => n.selectors.contains sel)

/-- `String.includes`: substring containment. -/
def strIncludes (s sub : String) : Bool :=
  s.toList.tails.any (fun t => sub.toList.isPrefixOf t)

/-- The match predicate of `clickByText` (full_scenario_perf.mjs line 29):
`(n.textContent || '').trim().toLowerCase().includes(txt.toLowerCase())`. -/
def textMatches (n : DomNode) (txt : String) : Bool :=
  strIncludes ((n.textContent.getD "").trim.toLower) txt.toLower

/-- The node `clickByText` clicks (src/scripts/full_scenario_perf.mjs lines
23–37): the selector list is split on commas, the selectors are scanned in
order and each selector's matches in document order, and the first node
whose text contains the target case-insensitively is clicked. -/
def clickByTextHit (p : PageDom) (selectorList txt : String) : Option DomNode :=
  (selectorList.splitOn ",").findSome? (fun sel =>
    (querySelectorAll p sel).find? (fun n => textMatches n txt))

/-- What `clickByText` returns: true when some node was clicked, false when
no selector produced a matching node.  The scanning loop has no throwing
path: failure is signalled solely by the returned value. -/
def clickByText (p : PageDom) (selectorList txt : String) : Bool :=
  (clickByTextHit p selectorList txt).isSome

/-- Environment for the element-handle operations of `typeIfExists`:
whether `el.click` or `el.type` throws when invoked. -/
structure ElemEnv where
  clickThrows : Bool
  typeThrows : Bool

/-- `page.$(selectorList)`: the first node, in document order, matching any
selector of the comma-separated list. -/
def queryFirst (p : PageDom) (selectorList : String) : Option DomNode :=
  p.nodes.find? (fun n =>
    ((selectorList.splitOn ",").map String.trim).any (fun sel => n.selectors.contains sel))

/-- Shallow embedding of `typeIfExists` (src/scripts/full_scenario_perf.mjs
lines 39–49): look the element up and return false when absent; otherwise
click and type, returning true; the surrounding try/catch converts any
exception from the handle operations into a returned false.  No exception
escapes. -/
def typeIfExists (p : PageDom) (env : ElemEnv) (selectorList : String)
    (_value : String) : Bool :=
  match queryFirst p selectorList with
  | none => false
  | some _ => if env.clickThrows || env.typeThrows then false else true

/-- One attempted strategy of a step's fallback chain, with its reported
outcome. -/
inductive Attempt where
  | clickPrimary (ok : Bool)
  | gotoFallback (ok : Bool)
deriving DecidableEq

/-- Shallow embedding of the sign-in step's action
(src/scripts/full_scenario_perf.mjs lines 111–119): try
`clickByText(page, 'a,button', 'Sign In')` first; only when it reports
false, navigate to the known sign-on URL, swallowing any navigation error
with `.catch(() => ...)` (`gotoOk` records whether that navigation
succeeded).  The action finishes with a value in every case; nothing is
raised past it. -/
def signInAttempts (p : PageDom) (gotoOk : Bool) : List Attempt :=
  if clickByText p "a,button" "Sign In" then [.clickPrimary true]
  else [.clickPrimary false, .gotoFallback gotoOk]

/-- The value held by the `clicked` binding of the view_cart, checkout and
logout steps: an awaited boolean, or the pending promise of a `clickByText`
call that was evaluated without `await` — a promise is an object and hence
truthy regardless of the boolean it later resolves to. -/
inductive ClickedValue where
  | boolean (b : Bool)
  | pendingPromise
deriving DecidableEq

/-- JavaScript truthiness of `clicked`. -/
def clickedTruthy : ClickedValue → Bool
  | .boolean b => b
  | .pendingPromise => true

/-- What a step's executor visibly did with its strategies. -/
inductive ViewCartEvent where
  | awaitedClick (text : String) (ok : Bool)
  | unawaitedClick (text : String)
  | gotoFallback (ok : Bool)
deriving DecidableEq

/-- Shallow embedding of the view_cart click chain
(src/scripts/full_scenario_perf.mjs line 189):
`const clicked = await clickByText(page, 'a,button', 'Cart')
|| clickByText(page, 'a,button', 'View Cart')
|| clickByText(page, 'a,button', 'My Cart');`
`await` binds tighter than `||`, so only the first call is awaited.  When
it reports true, `||` short-circuits: no fallback is evaluated and
`clicked` is the boolean true.  When it reports false, the second call
fires but its promise is not awaited; the promise object is truthy, so the
third call ('My Cart') is short-circuited — never evaluated — and
`clicked` ends up holding the pending promise.  The checkout (line 201)
and logout (line 214) chains have the same shape. -/
def viewCartChain (p : PageDom) : List ViewCartEvent × ClickedValue :=
  if clickByText p "a,button" "Cart" then
    ([.awaitedClick "Cart" true], .boolean true)
  else
    ([.awaitedClick "Cart" false, .unawaitedClick "View Cart"], .pendingPromise)

/-- The view_cart step's fallback behaviour (lines 188–195): the click
chain above followed by
`if (!clicked) { await page.goto(new URL('/actions/Cart.action', BASE).href, ...).catch(() => ...) }`
— the URL fallback runs only when `clicked` is falsy. -/
def viewCartStep (p : PageDom) (gotoOk : Bool) : List ViewCartEvent :=
  let chain := viewCartChain p
  if clickedTruthy chain.2 then chain.1 else chain.1 ++ [.gotoFallback gotoOk]

/-- Whether an `Except` computation finished normally (no exception
escaped). -/
def exceptIsOk {ε α : Type} : Except ε α → Bool
  | .ok _ => true
  | .error _ => false

/-- Whether a transaction event is the step's action. -/
def isActionEv : TxEvent → Bool
  | .actionRun _ => true
  | _ => false

/-- Whether a transaction event is the live metrics sample. -/
def isSampleEv : TxEvent → Bool
  | .sampleMetrics => true
  | _ => false

/-- Whether a transaction event is the trace stop. -/
def isStopEv : TxEvent → Bool
  | .traceStop => true
  | _ => false

/-- The first log entry whose event satisfies the given test. -/
def firstWith (l : List TxLogEntry) (p : TxEvent → Bool) : Option TxLogEntry :=
  l.find? (fun e => p e.ev)

/-! ## Theorems -/

/-- Folding `fun s x => s + f x` over a list adds the sum of the mapped
list to the start value (the shape of a JavaScript `reduce` with `+`). -/
theorem foldl_add_map_sum {α : Type} (f : α → Rat) (l : List α) :
    ∀ a : Rat, l.foldl (fun s x => s + f x) a = a + (l.map f).sum := by
  induction l with
  | nil => intro a; simp
  | cons x xs ih =>
    intro a
    simp only [List.foldl_cons, List.map_cons, List.sum_cons, ih]
    ring

/-- A guarded accumulation is the sum over the filtered list. -/
theorem foldl_guarded_add_filter_sum {α : Type} (p : α → Bool) (f : α → Rat)
    (l : List α) :
    ∀ a : Rat, l.foldl (fun s x => if p x then s + f x else s) a
      = a + ((l.filter p).map f).sum := by
  induction l with
  | nil => intro a; simp
  | cons x xs ih =>
    intro a
    rw [List.foldl_cons, ih]
    by_cases h : p x
    · simp [h, List.filter_cons_of_pos h, add_assoc]
    · simp [h, List.filter_cons_of_neg h]

/-- One observer callback stores the batch's last entry when the batch is
non-empty and keeps the previous state otherwise. -/
theorem lcpCallback_or (acc : Option LcpEntry) (b : List LcpEntry) :
    lcpCallback acc b = b.getLast?.or acc := by
  cases b with
  | nil => simp [lcpCallback]
  | cons x xs =>
    have h : (x :: xs).getLast?.isSome := by
      rw [List.getLast?_isSome]
      simp
    cases hx : (x :: xs).getLast? with
    | none => rw [hx] at h; simp at h
    | some y => simp [lcpCallback, hx]

/-- Folding the observer callback over the batches yields the last candidate
of the concatenated stream, defaulting to the starting state. -/
theorem lcpFold_or (bs : List (List LcpEntry)) :
    ∀ acc, bs.foldl lcpCallback acc = bs.flatten.getLast?.or acc := by
  induction bs with
  | nil => intro acc; simp
  | cons b bs ih =>
    intro acc
    simp only [List.foldl_cons, ih, List.flatten_cons, List.getLast?_append,
      lcpCallback_or]
    exact (Option.or_assoc ..).symm

/-- C3: for every list of long tasks the computed Total Blocking Time equals
the sum over the tasks of max(0, duration − 50); a single 120ms long task
yields 70ms. -/
theorem c3_tbt_sum_of_blocking_portions :
    (∀ longTasks : List LongTask,
        totalBlockingTime longTasks
          = (longTasks.map (fun t => max 0 (t.duration - 50))).sum)
    ∧ totalBlockingTime [{ duration := 120, startTime := 0 }] = 70 := by
  constructor
  · intro l
    simpa using foldl_add_map_sum (fun t => max 0 (t.duration - 50)) l 0
  · have h : (max (0 : Rat) (120 - 50)) = 70 := by norm_num
    simp [totalBlockingTime, h]

/-- C4: the reported TTFB equals responseStart − requestStart of the
navigation timing entry (300 and 100 give 200ms) and is null when the
navigation-timing signal is absent. -/
theorem c4_ttfb_from_navigation_timing :
    (∀ nav : NavigationTiming,
        ttfbOf (some nav) = some (nav.responseStart - nav.requestStart))
    ∧ ttfbOf none = none
    ∧ ttfbOf (some { responseStart := 300, requestStart := 100 }) = some 200 := by
  refine ⟨fun nav => rfl, rfl, ?_⟩
  simp [ttfbOf]
  norm_num

/-- C5: the computed CLS is the sum of the scores of exactly the shifts with
hadRecentInput = false (the flag the browser sets for shifts within 500ms of
a user input), and removing the flagged shifts never changes the result. -/
theorem c5_cls_excludes_recent_input :
    (∀ shifts : List LayoutShift,
        clsAccumulate shifts
          = ((shifts.filter fun e => !e.hadRecentInput).map (fun e => e.value)).sum)
    ∧ ∀ shifts : List LayoutShift,
        clsAccumulate (shifts.filter fun e => !e.hadRecentInput)
          = clsAccumulate shifts := by
  have key : ∀ shifts : List LayoutShift,
      clsAccumulate shifts
        = ((shifts.filter fun e => !e.hadRecentInput).map (fun e => e.value)).sum := by
    intro shifts
    simpa [clsAccumulate] using foldl_guarded_add_filter_sum
      (fun e => !e.hadRecentInput) (fun e => e.value) shifts 0
  refine ⟨key, fun shifts => ?_⟩
  rw [key, key shifts, List.filter_filter]
  simp

/-- C6: the reported LCP is the last largest-contentful-paint candidate
delivered to the observer before the live sample was taken (the browser
emits candidates in increasing-size order and stops after user input, so
the last delivered candidate is the largest valid one). -/
theorem c6_lcp_is_last_candidate :
    ∀ batches : List (List LcpEntry),
      lcpObserved batches = batches.flatten.getLast? := by
  intro batches
  simp [lcpObserved, lcpFold_or]

/-- C7 counterexample: in the comprehensive MCP report, a metrics payload
with no CumulativeLayoutShift signal is rendered with CLS value 0 — a
fabricated zero, not the N/A marker the other vitals get. -/
theorem c7_counterexample_cls_fabricated_zero :
    mcpClsCell none = ReportCell.num 0 ∧ mcpClsCell none ≠ ReportCell.na := by
  exact ⟨rfl, by decide⟩

/-- C7 amended: an absent Core Web Vitals signal is reported as N/A (LCP,
INP, TTFB, TBT in the MCP report; LCP, CLS, INP in the markdown report) or
as null (TTFB), never raising an exception — except CLS in the MCP report,
which an absent signal renders as the number 0. -/
theorem c7_absent_signals_degrade :
    mcpLcpCell none = ReportCell.na ∧ mcpInpCell none = ReportCell.na
    ∧ mcpTtfbCell none = ReportCell.na ∧ mcpTbtCell none = ReportCell.na
    ∧ mcpClsCell none = ReportCell.num 0
    ∧ mdLcpCell none = ReportCell.na ∧ mdClsCell none = ReportCell.na
    ∧ mdInpCell none = ReportCell.na
    ∧ ttfbOf none = none := by
  exact ⟨rfl, rfl, rfl, rfl, rfl, rfl, rfl, rfl, rfl⟩

/-- C2 counterexample: for an empty or truncated trace buffer the text does
not parse, `JSON.parse` throws, and the SyntaxError escapes
`parseTraceMetrics` uncaught — the decoder throws instead of returning a
failure value; a buffer parsing to a non-array JSON value likewise lets a
TypeError (`.find` is not a function) escape. -/
theorem c2_counterexample_decoder_throws :
    parseTraceMetrics none = Except.error JsError.syntaxError
    ∧ parseTraceMetrics (some (Json.obj [])) = Except.error JsError.typeError := by
  exact ⟨rfl, rfl⟩

/-- Binding a normally-completed `Except` computation runs the
continuation. -/
theorem exceptOkBind {ε α β : Type} (a : α) (f : α → Except ε β) :
    (Except.ok a >>= f : Except ε β) = f a := rfl

/-- Mapping over a normally-completed `Except` computation. -/
theorem exceptMapOk {ε α β : Type} (f : α → β) (a : α) :
    (f <$> (Except.ok a : Except ε α) : Except ε β) = Except.ok (f a) := rfl

/-- `Array.prototype.find` by name succeeds (returning a match or
`undefined`) on any event list without null elements. -/
theorem findByName_ok_of_no_null (nm : String) :
    ∀ events : List Json, events.all (fun e => !isNullJson e) = true →
      ∃ r, findByName events nm = Except.ok r := by
  intro events
  induction events with
  | nil => intro _; exact ⟨none, rfl⟩
  | cons e rest ih =>
    intro h
    rw [List.all_cons, Bool.and_eq_true] at h
    rw [findByName]
    rw [Bool.not_eq_eq_eq_not, Bool.not_true] at h
    rw [h.1]
    by_cases hm : strictEqStr (jsGet e "name") nm
    · exact ⟨some e, by simp [hm]⟩
    · obtain ⟨r, hr⟩ := ih h.2
      exact ⟨r, by simp [hm, hr]⟩

/-- `Array.prototype.filter` by name succeeds on any event list without
null elements. -/
theorem filterByName_ok_of_no_null (nm : String) :
    ∀ events : List Json, events.all (fun e => !isNullJson e) = true →
      ∃ r, filterByName events nm = Except.ok r := by
  intro events
  induction events with
  | nil => intro _; exact ⟨[], rfl⟩
  | cons e rest ih =>
    intro h
    rw [List.all_cons, Bool.and_eq_true] at h
    rw [Bool.not_eq_eq_eq_not, Bool.not_true] at h
    obtain ⟨r, hr⟩ := ih h.2
    rw [filterByName, h.1]
    by_cases hm : strictEqStr (jsGet e "name") nm
    · exact ⟨e :: r, by simp [hm, hr]⟩
    · exact ⟨r, by simp [hm, hr]⟩

/-- C2 amended: the trace-processing decoder `parseRawTraceBuffer`
(spec-modelled, its code lives outside `src/`) is total — every buffer
yields a structured capture or a ParseError failure value; the Word-report
decoder `parseTraceMetrics`, by contrast, completes without an exception
only on buffers parsing to a JSON array with no null elements (on such
input every missing signal degrades to a null field instead of throwing). -/
theorem c2_amended_total_on_wellformed :
    ∀ (events : List Json) (buffer : Option Json),
      events.all (fun e => !isNullJson e) = true →
      ((∃ c, parseRawTraceBuffer buffer = ParseOutcome.parsedTrace c)
        ∨ (∃ d, parseRawTraceBuffer buffer = ParseOutcome.parseError d))
      ∧ exceptIsOk (parseTraceMetrics (some (Json.arr events))) = true := by
  intro events buffer h
  constructor
  · match buffer with
    | none => exact Or.inr ⟨_, rfl⟩
    | some (.arr es) => exact Or.inl ⟨_, rfl⟩
    | some .null => exact Or.inr ⟨_, rfl⟩
    | some (.bool _) => exact Or.inr ⟨_, rfl⟩
    | some (.num _) => exact Or.inr ⟨_, rfl⟩
    | some (.str _) => exact Or.inr ⟨_, rfl⟩
    | some (.obj _) => exact Or.inr ⟨_, rfl⟩
  · obtain ⟨r1, h1⟩ := findByName_ok_of_no_null "navigationStart" events h
    obtain ⟨r2, h2⟩ := findByName_ok_of_no_null "loadEventEnd" events h
    obtain ⟨r3, h3⟩ := findByName_ok_of_no_null "firstPaint" events h
    obtain ⟨r4, h4⟩ := findByName_ok_of_no_null "firstContentfulPaint" events h
    obtain ⟨r5, h5⟩ := filterByName_ok_of_no_null "ResourceSendRequest" events h
    obtain ⟨r6, h6⟩ := filterByName_ok_of_no_null "ResourceReceiveResponse" events h
    simp only [parseTraceMetrics, exceptOkBind, h1, h2, h3, h4, h5, h6,
      exceptMapOk, exceptIsOk]
    rfl

/-- Witness for the C2 amended theorem at the empty capture: an empty event
array decodes without an exception, and the truncated buffer yields a
ParseError value from `parseRawTraceBuffer`. -/
theorem c2_amended_witness :
    ([] : List Json).all (fun e => !isNullJson e) = true
    ∧ (((∃ c, parseRawTraceBuffer none = ParseOutcome.parsedTrace c)
          ∨ (∃ d, parseRawTraceBuffer none = ParseOutcome.parseError d))
        ∧ exceptIsOk (parseTraceMetrics (some (Json.arr []))) = true) :=
  ⟨rfl, c2_amended_total_on_wellformed [] none rfl⟩

/-- A transaction whose action completes by reporting a value finishes
normally, with the whole stop/decode/save sequence of
`recordTraceAroundFull` behind it. -/
theorem recordExcFull_ok_of_not_thrown {ctx : TxCtx} {o : ActionOutcome}
    {reload : Bool} {s : TxState} (h : o ≠ ActionOutcome.thrown) :
    recordTraceAroundFullExc ctx o reload s
      = Except.ok (recordTraceAroundFull { ctx with actionOk := actionOkOf o } reload s) := by
  cases o with
  | thrown => exact absurd rfl h
  | ok => rfl
  | reportedFailure => rfl

/-- The enhanced transaction likewise finishes normally whenever its action
completes by reporting a value. -/
theorem recordExcEnhanced_ok_of_not_thrown {ctx : TxCtx} {o : ActionOutcome}
    {reload : Bool} {s : TxState} (h : o ≠ ActionOutcome.thrown) :
    recordTraceAroundEnhancedExc ctx o reload s
      = Except.ok (recordTraceAroundEnhanced { ctx with actionOk := actionOkOf o } reload s) := by
  cases o with
  | thrown => exact absurd rfl h
  | ok => rfl
  | reportedFailure => rfl

/-- C1 counterexample: when the home navigation times out, the rejection of
the uncaught `page.goto` (full_scenario_perf.mjs line 105) escapes
`recordTraceAround` (line 79 has no try/catch) and `run` (its try has only
a finally), reaching `run().catch` / `process.exit(1)` (lines 239–242): the
run aborts with no final report at all — zero entries rather than one per
step — even though every later step would have succeeded.  The enhanced
runner behaves the same for its uncaught homepage goto
(enhanced_perf_test.mjs line 169): `main`'s outer catch logs and exits 1
without writing report.json. -/
theorem c1_counterexample_uncaught_home_goto_aborts :
    runScenario (fun _ => sampleTxCtx)
        (fun i => if i == 0 then ActionOutcome.thrown else ActionOutcome.ok)
      = Except.error RunAbort.uncaughtException
    ∧ mainScenario (fun _ => sampleTxCtx)
        (fun i => if i == 0 then ActionOutcome.thrown else ActionOutcome.ok)
      = Except.error RunAbort.uncaughtException :=
  ⟨rfl, rfl⟩

/-- C1 amended: for every scenario run in which each step's action
completes by reporting its outcome as a value (no step action throws
uncaught), both runners' final reports contain exactly one entry per step
of the fixed scenario definition, in execution order — a step whose action
reported failure still contributes its entry and the runner advances to
the next. -/
theorem c1_amended_one_entry_per_step :
    ∀ (env : RunEnv) (outcomes : Nat → ActionOutcome),
      ((List.range 9).all fun i => !(outcomes i == ActionOutcome.thrown)) = true →
      (∃ entries, runScenario env outcomes = Except.ok entries
        ∧ entries.map (fun e => e.step) = scenarioStepNames
        ∧ entries.length = scenarioStepNames.length)
      ∧ (∃ entries, mainScenario env outcomes = Except.ok entries
        ∧ entries.map (fun e => e.step) = enhancedStepNames
        ∧ entries.length = enhancedStepNames.length) := by
  intro env outcomes h
  rw [List.all_eq_true] at h
  have hmem : ∀ i, i < 9 → outcomes i ≠ ActionOutcome.thrown := by
    intro i hi
    simpa using h i (List.mem_range.mpr hi)
  have h0 := hmem 0 (by norm_num)
  have h1 := hmem 1 (by norm_num)
  have h2 := hmem 2 (by norm_num)
  have h3 := hmem 3 (by norm_num)
  have h4 := hmem 4 (by norm_num)
  have h5 := hmem 5 (by norm_num)
  have h6 := hmem 6 (by norm_num)
  have h7 := hmem 7 (by norm_num)
  have h8 := hmem 8 (by norm_num)
  constructor
  · simp only [runScenario, recordExcFull_ok_of_not_thrown h0,
      recordExcFull_ok_of_not_thrown h1, recordExcFull_ok_of_not_thrown h2,
      recordExcFull_ok_of_not_thrown h3, recordExcFull_ok_of_not_thrown h4,
      recordExcFull_ok_of_not_thrown h5, recordExcFull_ok_of_not_thrown h6,
      recordExcFull_ok_of_not_thrown h7, recordExcFull_ok_of_not_thrown h8,
      exceptOkBind]
    exact ⟨_, rfl, rfl, rfl⟩
  · simp only [mainScenario, recordExcEnhanced_ok_of_not_thrown h0,
      recordExcEnhanced_ok_of_not_thrown h1, recordExcEnhanced_ok_of_not_thrown h2,
      recordExcEnhanced_ok_of_not_thrown h3, recordExcEnhanced_ok_of_not_thrown h4,
      recordExcEnhanced_ok_of_not_thrown h5, recordExcEnhanced_ok_of_not_thrown h6,
      recordExcEnhanced_ok_of_not_thrown h7, recordExcEnhanced_ok_of_not_thrown h8,
      exceptOkBind]
    exact ⟨_, rfl, rfl, rfl⟩

/-- Witness for the C1 amended theorem: a run in which every step's action
reports failure by value still produces one entry per step, in order. -/
theorem c1_amended_witness :
    (((List.range 9).all fun i =>
        !((fun _ => ActionOutcome.reportedFailure) i == ActionOutcome.thrown)) = true)
    ∧ ((∃ entries,
          runScenario (fun _ => sampleTxCtx) (fun _ => ActionOutcome.reportedFailure)
            = Except.ok entries
          ∧ entries.map (fun e => e.step) = scenarioStepNames
          ∧ entries.length = scenarioStepNames.length)
      ∧ (∃ entries,
          mainScenario (fun _ => sampleTxCtx) (fun _ => ActionOutcome.reportedFailure)
            = Except.ok entries
          ∧ entries.map (fun e => e.step) = enhancedStepNames
          ∧ entries.length = enhancedStepNames.length)) :=
  ⟨by decide,
   c1_amended_one_entry_per_step (fun _ => sampleTxCtx)
     (fun _ => ActionOutcome.reportedFailure) (by decide)⟩

/-- C8: for every scheduling and action outcome — in particular a reported
action failure — both trace transactions still run the settle wait, the
trace stop and (full scenario) the decode and summary save after the
action, in order, and the full-scenario step result carries exactly the
decode of the returned buffer, so partial telemetry is never lost. -/
theorem c8_failed_action_still_stops_and_decodes :
    ∀ (ctx : TxCtx) (reload : Bool) (s : TxState),
      ((recordTraceAroundFull ctx reload s).1.log.map (fun e => e.ev)
        = s.log.map (fun e => e.ev)
          ++ (if reload then [TxEvent.navBlank] else [])
          ++ [TxEvent.traceStart, TxEvent.actionRun ctx.actionOk,
              TxEvent.settleSleep 2500, TxEvent.traceStop,
              TxEvent.decodeBuffer, TxEvent.saveTraceFile])
      ∧ (recordTraceAroundFull ctx reload s).2.parsed = parseRawTraceBuffer ctx.buffer
      ∧ ((recordTraceAroundEnhanced ctx reload s).1.log.map (fun e => e.ev)
        = s.log.map (fun e => e.ev)
          ++ (if reload then [TxEvent.navBlank] else [])
          ++ [TxEvent.traceStart, TxEvent.actionRun ctx.actionOk,
              TxEvent.settleSleep 2500, TxEvent.sampleMetrics,
              TxEvent.saveMetricsFile, TxEvent.traceStop, TxEvent.saveTraceFile]) := by
  intro ctx reload s
  cases reload <;>
    simp [recordTraceAroundFull, recordTraceAroundEnhanced, emit]

/-- C10: for every scheduling and action outcome, the live metrics sample
of the enhanced transaction, and the trace stop of the full-scenario
transaction, start no earlier than 2500ms of virtual time after the step's
action completed: the fixed settle delay always fully elapses first. -/
theorem c10_settle_delay_before_sampling :
    ∀ (ctx : TxCtx) (reload : Bool),
      (∃ a m,
        firstWith (recordTraceAroundEnhanced ctx reload initTxState).1.log isActionEv
            = some a
        ∧ firstWith (recordTraceAroundEnhanced ctx reload initTxState).1.log isSampleEv
            = some m
        ∧ a.start + a.dur + 2500 ≤ m.start)
      ∧ (∃ a st,
        firstWith (recordTraceAroundFull ctx reload initTxState).1.log isActionEv
            = some a
        ∧ firstWith (recordTraceAroundFull ctx reload initTxState).1.log isStopEv
            = some st
        ∧ a.start + a.dur + 2500 ≤ st.start) := by
  intro ctx reload
  cases reload <;>
  · simp only [recordTraceAroundEnhanced, recordTraceAroundFull, emit, initTxState,
      firstWith, isActionEv, isSampleEv, isStopEv, List.find?, List.nil_append,
      List.cons_append]
    refine ⟨⟨_, _, rfl, rfl, ?_⟩, ⟨_, _, rfl, rfl, ?_⟩⟩ <;> simp

/-- The first element satisfying `p` exists exactly when some element
satisfies `p`. -/
theorem find?_isSome_eq_any {α : Type} (p : α → Bool) (l : List α) :
    (l.find? p).isSome = l.any p := by
  induction l with
  | nil => rfl
  | cons x xs ih => cases h : p x <;> simp [List.find?_cons, h, ih]

/-- `findSome?` succeeds exactly when some element's image succeeds. -/
theorem findSome?_isSome_eq_any {α β : Type} (f : α → Option β) (l : List α) :
    (l.findSome? f).isSome = l.any (fun x => (f x).isSome) := by
  induction l with
  | nil => rfl
  | cons x xs ih => cases h : f x <;> simp [List.findSome?_cons, h, ih]

/-- C9 counterexample: on a page with no matching element at all the
view_cart primary click reports false and nothing was clicked, yet the
step's executor only fires the 'View Cart' fallback without awaiting it
(its result is discarded), never evaluates the 'My Cart' fallback, and
skips the URL fallback — the un-awaited promise bound to `clicked` is
truthy (full_scenario_perf.mjs line 189), so the declared fallback order
is not attempted on primary failure. -/
theorem c9_counterexample_view_cart_fallbacks_skipped :
    viewCartStep { nodes := [] } true
      = [ViewCartEvent.awaitedClick "Cart" false,
         ViewCartEvent.unawaitedClick "View Cart"]
    ∧ (viewCartChain { nodes := [] }).2 = ClickedValue.pendingPromise
    ∧ clickByText { nodes := [] } "a,button" "Cart" = false := by
  have hc : clickByText { nodes := [] } "a,button" "Cart" = false := by
    simp [clickByText, clickByTextHit, findSome?_isSome_eq_any, querySelectorAll]
  refine ⟨?_, ?_, hc⟩
  · simp [viewCartStep, viewCartChain, clickedTruthy, hc]
  · simp [viewCartChain, hc]

/-- C9 amended: the sign-in (and login submit) chains try the primary click
first and the navigation fallback exactly when the primary reported
failure, and after it; `clickByText` signals a missing element by
returning false (true exactly when some listed selector has a
text-matching node); `typeIfExists` converts a missing element or a
throwing handle operation into a returned false — failures are values,
nothing is raised past the executor.  In the view_cart (and checkout,
logout) steps, however, only the primary click is awaited: on its failure
the first text fallback fires un-awaited, the pending promise makes
`clicked` truthy, and the remaining text fallback and the URL fallback are
never attempted. -/
theorem c9_amended_fallback_chains :
    ∀ (p : PageDom) (gotoOk : Bool) (env : ElemEnv) (selectorList txt v : String),
      ((signInAttempts p gotoOk).head?
          = some (Attempt.clickPrimary (clickByText p "a,button" "Sign In")))
      ∧ (Attempt.gotoFallback gotoOk ∈ signInAttempts p gotoOk
          ↔ clickByText p "a,button" "Sign In" = false)
      ∧ (clickByText p selectorList txt
          = (selectorList.splitOn ",").any (fun sel =>
              (querySelectorAll p sel).any (fun n => textMatches n txt)))
      ∧ (typeIfExists p env selectorList v
          = ((queryFirst p selectorList).isSome
              && (!env.clickThrows && !env.typeThrows)))
      ∧ ((viewCartStep p gotoOk).head?
          = some (ViewCartEvent.awaitedClick "Cart" (clickByText p "a,button" "Cart")))
      ∧ (ViewCartEvent.unawaitedClick "View Cart" ∈ viewCartStep p gotoOk
          ↔ clickByText p "a,button" "Cart" = false)
      ∧ (ViewCartEvent.unawaitedClick "My Cart" ∉ viewCartStep p gotoOk)
      ∧ (ViewCartEvent.gotoFallback gotoOk ∉ viewCartStep p gotoOk) := by
  intro p gotoOk env selectorList txt v
  refine ⟨?_, ?_, ?_, ?_, ?_, ?_, ?_, ?_⟩
  · cases h : clickByText p "a,button" "Sign In" <;> simp [signInAttempts, h]
  · cases h : clickByText p "a,button" "Sign In" <;> simp [signInAttempts, h]
  · simp only [clickByText, clickByTextHit, findSome?_isSome_eq_any,
      find?_isSome_eq_any]
  · cases hq : queryFirst p selectorList <;>
      cases hc : env.clickThrows <;> cases ht : env.typeThrows <;>
        simp [typeIfExists, hq, hc, ht]
  · cases h : clickByText p "a,button" "Cart" <;>
      simp [viewCartStep, viewCartChain, clickedTruthy, h]
  · cases h : clickByText p "a,button" "Cart" <;>
      simp [viewCartStep, viewCartChain, clickedTruthy, h]
  · cases h : clickByText p "a,button" "Cart" <;>
      simp [viewCartStep, viewCartChain, clickedTruthy, h]
  · cases h : clickByText p "a,button" "Cart" <;>
      simp [viewCartStep, viewCartChain, clickedTruthy, h]

end PerfSpec
